import Mathlib

/-!
Shallow embedding of the CSR auto-approval controller
(`pkg/controller/csr/csr_controller.go` of
openshift-cherrypick-robot/managedcluster-import-controller).

The controller watches CertificateSigningRequest objects, filters events
with `csrPredicate`, and in `Reconcile` fetches the CSR, fetches the
ManagedCluster named by the CSR's cluster-name label, and — when that
fetch succeeds — appends an Approved condition and submits an approval
update.

Pure helpers (`getClusterName`, `getApprovalType`, `validUsername`,
`csrPredicate`) are translated function by function.  The stateful
`Reconcile` is embedded as a pure function of an environment `Env`
recording the responses of the external store (CSR fetch, ManagedCluster
fetch, approval-update success), returning the controller result together
with the list of approval updates it submitted.
-/

/-- Go constant `userNameSignature = "system:serviceaccount:%s:%s-bootstrap-sa"`,
applied via `fmt.Sprintf` to the cluster name twice. -/
def userNameSignature (clusterName : String) : String :=
  "system:serviceaccount:" ++ clusterName ++ ":" ++ clusterName ++ "-bootstrap-sa"

/-- Go constant `clusterLabel = "open-cluster-management.io/cluster-name"`. -/
def clusterLabel : String := "open-cluster-management.io/cluster-name"

/-- `certificatesv1beta1.CertificateApproved`. -/
def CertificateApproved : String := "Approved"

/-- `certificatesv1beta1.CertificateDenied`. -/
def CertificateDenied : String := "Denied"

/-- One entry of `csr.Status.Conditions`
(`certificatesv1beta1.CertificateSigningRequestCondition`): the fields the
controller reads or writes. Timestamps are abstracted as naturals. -/
structure CSRCondition where
  type : String
  reason : String
  message : String
  lastUpdateTime : Nat
deriving DecidableEq, Repr

/-- The fields of a `certificatesv1beta1.CertificateSigningRequest` the
controller reads or writes.  Labels are the CSR's label map, embedded as an
association list (Go map iteration is over key/value pairs; keys of a Go map
are unique).  `deletionTimestamp` is `*metav1.Time`, hence an `Option`. -/
structure CSR where
  name : String
  labels : List (String × String)
  username : String
  conditions : List CSRCondition
  deletionTimestamp : Option Nat
deriving DecidableEq, Repr

/-- `getClusterName`: ranges over the label map and keeps the value of the
last pair whose key is `clusterLabel`, starting from `""`. -/
def getClusterName (csr : CSR) : String :=
  csr.labels.foldl (fun acc kv => if kv.1 = clusterLabel then kv.2 else acc) ""

/-- The loop body of `getApprovalType`: first condition whose type is
Approved or Denied, else `""`. -/
def approvalTypeOf : List CSRCondition → String
  | [] => ""
  | c :: rest =>
    if c.type = CertificateApproved ∨ c.type = CertificateDenied then c.type
    else approvalTypeOf rest

/-- `getApprovalType`: `""` when `csr.Status.Conditions` is nil, otherwise
the first Approved/Denied condition type found, or `""`.  (A nil slice and
an empty slice both yield `""`, so both are the empty list here.) -/
def getApprovalType (csr : CSR) : String :=
  approvalTypeOf csr.conditions

/-- `validUsername`: byte-for-byte equality of `csr.Spec.Username` with the
templated bootstrap service-account identity. -/
def validUsername (csr : CSR) (clusterName : String) : Bool :=
  csr.username == userNameSignature clusterName

/-- `csrPredicate`: the event-filter eligibility check. -/
def csrPredicate (csr : CSR) : Bool :=
  getClusterName csr != "" &&
    getApprovalType csr == "" &&
    validUsername csr (getClusterName csr)

/-- Outcome of a store fetch as seen by the controller: success, the
not-found error, or any other error. -/
inductive FetchResult (α : Type) where
  | ok : α → FetchResult α
  | notFound : FetchResult α
  | otherErr : FetchResult α
deriving DecidableEq, Repr

/-- Responses of the external store during one `Reconcile` invocation:
the result of `r.client.Get` on the requested CSR, the result of
`r.client.Get` on a ManagedCluster of a given name (only existence is
consulted, so the payload is `Unit`), whether
`UpdateApproval` fails, and the value of `metav1.Now()`. -/
structure Env where
  csrFetch : FetchResult CSR
  clusterFetch : String → FetchResult Unit
  updateApprovalFails : Bool
  now : Nat

/-- The condition literal appended by `Reconcile`. -/
def approvedCondition (now : Nat) : CSRCondition :=
  ⟨CertificateApproved, "AutoApprovedByCSRController",
    "The managedcluster-import-controller auto approval automatically approved this CSR",
    now⟩

/-- Result of one `Reconcile` invocation: whether a non-nil error was
returned (the returned `reconcile.Result` is always the zero value, so the
error is the whole signal), and the list of CSR objects submitted to
`UpdateApproval`, in order. -/
structure ReconcileResult where
  isError : Bool
  writes : List CSR
deriving DecidableEq, Repr

/-- `ReconcileCSR.Reconcile`, step for step:
fetch the CSR (not-found ⇒ success, other error ⇒ error); return success if
the CSR is marked for deletion; fetch the ManagedCluster named by the
cluster-name label (any failure ⇒ success, no write); otherwise append the
Approved condition and submit the approval update, surfacing its error. -/
def Reconcile (env : Env) : ReconcileResult :=
  match env.csrFetch with
  | .notFound => ⟨false, []⟩
  | .otherErr => ⟨true, []⟩
  | .ok inst =>
    if inst.deletionTimestamp.isSome then ⟨false, []⟩
    else
      match env.clusterFetch (getClusterName inst) with
      | .notFound => ⟨false, []⟩
      | .otherErr => ⟨false, []⟩
      | .ok _ =>
        let updated : CSR :=
          { inst with conditions := inst.conditions ++ [approvedCondition env.now] }
        ⟨env.updateApprovalFails, [updated]⟩

/-- The kube client of a constructed reconciler: `none` embeds the nil
`kubernetes.Interface`. -/
structure ReconcileCSR where
  kubeClient : Option Unit
deriving DecidableEq, Repr

/-- `newReconciler`: when `libgoclient.NewDefaultKubeClient` fails, the
reconciler is built with `kubeClient = nil`; otherwise with the client. -/
def newReconciler (clientResult : Except Unit Unit) : ReconcileCSR :=
  match clientResult with
  | .error _ => ⟨none⟩
  | .ok c => ⟨some c⟩

/-- A reconciler invokes `UpdateApproval` through a nil kube client exactly
when its `kubeClient` is nil and the invocation reaches the submission
step (submits at least one write). -/
def submitsWithNilClient (r : ReconcileCSR) (env : Env) : Bool :=
  r.kubeClient.isNone && !(Reconcile env).writes.isEmpty

example : csrPredicate
    ⟨"csr-1", [(clusterLabel, "alpha")],
      "system:serviceaccount:alpha:alpha-bootstrap-sa", [], none⟩ = true := by decide

example : csrPredicate
    ⟨"csr-1", [(clusterLabel, "alpha")],
      "system:serviceaccount:beta:alpha-bootstrap-sa", [], none⟩ = false := by decide

/-! ### Helper lemmas about the label scan and the condition scan -/

/-- If no pair carries the cluster label key, the label scan keeps its
accumulator. -/
theorem foldl_label_absent (l : List (String × String)) (acc : String)
    (h : ∀ v, (clusterLabel, v) ∉ l) :
    l.foldl (fun a kv => if kv.1 = clusterLabel then kv.2 else a) acc = acc := by
  induction l generalizing acc with
  | nil => rfl
  | cons kv rest ih =>
    obtain ⟨k, w⟩ := kv
    have hk : ¬ k = clusterLabel := by
      intro hke
      exact h w (by rw [hke]; exact List.mem_cons_self _ _)
    simp only [List.foldl_cons, if_neg hk]
    exact ih acc fun v hv => h v (List.mem_cons_of_mem _ hv)

/-- With pairwise-distinct keys (as in a Go map), the label scan returns
the value bound to the cluster label key whenever one is present. -/
theorem foldl_label_unique (l : List (String × String)) (acc v : String)
    (hmem : (clusterLabel, v) ∈ l) (hnodup : (l.map Prod.fst).Nodup) :
    l.foldl (fun a kv => if kv.1 = clusterLabel then kv.2 else a) acc = v := by
  induction l generalizing acc with
  | nil => cases hmem
  | cons kv rest ih =>
    obtain ⟨k, w⟩ := kv
    rw [List.map_cons, List.nodup_cons] at hnodup
    rcases List.mem_cons.mp hmem with heq | hrest
    · obtain ⟨hk, hv⟩ := Prod.mk.injEq .. ▸ heq
      simp only [List.foldl_cons, if_pos hk.symm]
      have habsent : ∀ u, (clusterLabel, u) ∉ rest := by
        intro u hu
        have hmap : Prod.fst (clusterLabel, u) ∈ rest.map Prod.fst :=
          List.mem_map_of_mem Prod.fst hu
        apply hnodup.1
        rw [← hk]
        exact hmap
      rw [foldl_label_absent rest w habsent, hv]
    · have hk : ¬ k = clusterLabel := by
        intro hke
        have hmap : Prod.fst (clusterLabel, v) ∈ rest.map Prod.fst :=
          List.mem_map_of_mem Prod.fst hrest
        apply hnodup.1
        rw [hke]
        exact hmap
      simp only [List.foldl_cons, if_neg hk]
      exact ih acc hrest hnodup.2

/-- A CSR with no cluster-name label has the empty cluster name. -/
theorem getClusterName_of_no_label (csr : CSR)
    (h : ∀ v, (clusterLabel, v) ∉ csr.labels) :
    getClusterName csr = "" :=
  foldl_label_absent csr.labels "" h

/-- With pairwise-distinct label keys, `getClusterName` returns the value
bound to the cluster label key. -/
theorem getClusterName_of_mem (csr : CSR) (v : String)
    (hmem : (clusterLabel, v) ∈ csr.labels)
    (hnodup : (csr.labels.map Prod.fst).Nodup) :
    getClusterName csr = v :=
  foldl_label_unique csr.labels "" v hmem hnodup

/-- The condition scan yields `""` exactly when no condition is terminal. -/
theorem approvalTypeOf_eq_empty_iff (cs : List CSRCondition) :
    approvalTypeOf cs = "" ↔
      ∀ c ∈ cs, c.type ≠ CertificateApproved ∧ c.type ≠ CertificateDenied := by
  induction cs with
  | nil => simp [approvalTypeOf]
  | cons c rest ih =>
    rw [List.forall_mem_cons, ← ih]
    by_cases h : c.type = CertificateApproved ∨ c.type = CertificateDenied
    · simp only [approvalTypeOf, if_pos h]
      constructor
      · intro he
        exfalso
        rcases h with h | h <;> rw [h] at he <;>
          simp [CertificateApproved, CertificateDenied] at he
      · rintro ⟨⟨h1, h2⟩, -⟩
        rcases h with h | h
        · exact absurd h h1
        · exact absurd h h2
    · simp only [approvalTypeOf, if_neg h]
      push_neg at h
      simp [h.1, h.2]

/-- Unfolding of `csrPredicate` into its three propositional checks. -/
theorem csrPredicate_eq_true_iff (csr : CSR) :
    csrPredicate csr = true ↔
      getClusterName csr ≠ "" ∧ getApprovalType csr = "" ∧
        csr.username = userNameSignature (getClusterName csr) := by
  simp [csrPredicate, validUsername, Bool.and_eq_true, and_assoc]

/-! ### Run lemmas: the value of `Reconcile` on each control path -/

/-- When the CSR is fetched, is not marked for deletion, and the
ManagedCluster fetch succeeds, `Reconcile` submits exactly the fetched CSR
with the Approved condition appended, and errors iff the update fails. -/
theorem Reconcile_run_submit (env : Env) (csr : CSR) (u : Unit)
    (hf : env.csrFetch = .ok csr)
    (hd : csr.deletionTimestamp = none)
    (hc : env.clusterFetch (getClusterName csr) = .ok u) :
    Reconcile env = ⟨env.updateApprovalFails,
      [{ csr with conditions := csr.conditions ++ [approvedCondition env.now] }]⟩ := by
  simp [Reconcile, hf, hd, hc]

/-- When the CSR is fetched but the ManagedCluster fetch fails (not-found
or otherwise), `Reconcile` returns success with no write. -/
theorem Reconcile_run_cluster_fail (env : Env) (csr : CSR)
    (hf : env.csrFetch = .ok csr)
    (hc : env.clusterFetch (getClusterName csr) = .notFound ∨
      env.clusterFetch (getClusterName csr) = .otherErr) :
    Reconcile env = ⟨false, []⟩ := by
  cases hd : csr.deletionTimestamp with
  | some t => simp [Reconcile, hf, hd]
  | none => rcases hc with hc | hc <;> simp [Reconcile, hf, hd, hc]

/-- When the CSR is marked for deletion, `Reconcile` returns success with
no write. -/
theorem Reconcile_run_deleting (env : Env) (csr : CSR) (t : Nat)
    (hf : env.csrFetch = .ok csr)
    (hd : csr.deletionTimestamp = some t) :
    Reconcile env = ⟨false, []⟩ := by
  simp [Reconcile, hf, hd]

/-! ### Claims -/

/-- Claim C4: the eligibility predicate `csrPredicate` returns true iff
(1) the cluster-name label is present with a non-empty value, (2) the
condition list holds no Approved/Denied condition, and (3) the Username
equals the templated bootstrap identity for the labeled cluster name; it
is a total pure function of the CSR snapshot (`csrPredicate` is a Lean
function of the `CSR` value alone).  Label keys are pairwise distinct, as
in a Go map. -/
theorem C4_eligibility_iff (csr : CSR)
    (hnodup : (csr.labels.map Prod.fst).Nodup) :
    csrPredicate csr = true ↔
      ∃ v, (clusterLabel, v) ∈ csr.labels ∧ v ≠ "" ∧
        (∀ c ∈ csr.conditions, c.type ≠ CertificateApproved ∧ c.type ≠ CertificateDenied) ∧
        csr.username = userNameSignature v := by
  rw [csrPredicate_eq_true_iff]
  constructor
  · rintro ⟨hname, hterm, huser⟩
    by_cases hex : ∃ v, (clusterLabel, v) ∈ csr.labels
    · obtain ⟨v, hv⟩ := hex
      have hgv : getClusterName csr = v := getClusterName_of_mem csr v hv hnodup
      refine ⟨v, hv, ?_, ?_, ?_⟩
      · rw [← hgv]; exact hname
      · exact (approvalTypeOf_eq_empty_iff _).mp hterm
      · rw [← hgv]; exact huser
    · push_neg at hex
      exact absurd (getClusterName_of_no_label csr hex) hname
  · rintro ⟨v, hv, hne, hterm, huser⟩
    have hgv : getClusterName csr = v := getClusterName_of_mem csr v hv hnodup
    refine ⟨by rw [hgv]; exact hne, ?_, by rw [hgv]; exact huser⟩
    exact (approvalTypeOf_eq_empty_iff _).mpr hterm

def csrC4 : CSR :=
  ⟨"csr-1", [(clusterLabel, "alpha")],
    "system:serviceaccount:alpha:alpha-bootstrap-sa", [], none⟩

/-- Witness for C4 at a concrete eligible CSR. -/
theorem C4_witness : csrPredicate csrC4 = true :=
  (C4_eligibility_iff csrC4 (by decide)).mpr
    ⟨"alpha", by decide, by decide, by decide, by decide⟩

/-- Claim C5: when the registry-entry (ManagedCluster) fetch for the CSR's
labeled cluster name returns not-found or any other error, `Reconcile`
submits no approval update and returns terminal success. -/
theorem C5_registry_fetch_failure (env : Env) (csr : CSR)
    (hfetch : env.csrFetch = .ok csr)
    (hfail : env.clusterFetch (getClusterName csr) = .notFound ∨
      env.clusterFetch (getClusterName csr) = .otherErr) :
    Reconcile env = ⟨false, []⟩ :=
  Reconcile_run_cluster_fail env csr hfetch hfail

def csrC5 : CSR :=
  ⟨"csr-1", [(clusterLabel, "alpha")],
    "system:serviceaccount:alpha:alpha-bootstrap-sa", [], none⟩

def envC5 : Env := ⟨.ok csrC5, fun _ => .notFound, false, 0⟩

/-- Witness for C5 at a concrete eligible CSR whose cluster is not
registered. -/
theorem C5_witness : Reconcile envC5 = ⟨false, []⟩ :=
  C5_registry_fetch_failure envC5 csrC5 rfl (Or.inl rfl)

/-- Claim C6: when the CSR fetch reports not-found, `Reconcile` returns
terminal success with no write and no error. -/
theorem C6_csr_not_found (env : Env)
    (h : env.csrFetch = .notFound) :
    Reconcile env = ⟨false, []⟩ := by
  simp [Reconcile, h]

def envC6 : Env := ⟨.notFound, fun _ => .notFound, false, 0⟩

/-- Witness for C6 at a concrete environment. -/
theorem C6_witness : Reconcile envC6 = ⟨false, []⟩ :=
  C6_csr_not_found envC6 rfl

/-- Claim C7: `Reconcile` returns a non-nil error iff the CSR fetch fails
with an error other than not-found, or the invocation reaches the approval
submission (CSR fetched, not deleting, registry entry found) and the
submission fails; in every other case it returns success. -/
theorem C7_error_iff (env : Env) :
    (Reconcile env).isError = true ↔
      env.csrFetch = .otherErr ∨
        ∃ csr, env.csrFetch = .ok csr ∧ csr.deletionTimestamp = none ∧
          env.clusterFetch (getClusterName csr) = .ok () ∧
          env.updateApprovalFails = true := by
  cases hf : env.csrFetch with
  | notFound => simp [Reconcile, hf]
  | otherErr => simp [Reconcile, hf]
  | ok csr =>
    cases hd : csr.deletionTimestamp with
    | some t => simp [Reconcile, hf, hd]
    | none =>
      cases hc : env.clusterFetch (getClusterName csr) with
      | ok u => cases u; simp [Reconcile, hf, hd, hc]
      | notFound => simp [Reconcile, hf, hd, hc]
      | otherErr => simp [Reconcile, hf, hd, hc]

/-- Claim C8: every CSR the controller ever submits is the fetched CSR
with exactly the Approved condition appended at the end — the appended
suffix consists of conditions of type Approved (never Denied), and the
original condition list is kept intact as the front of the submitted
list. -/
theorem C8_never_denies (env : Env) (w : CSR)
    (hw : w ∈ (Reconcile env).writes) :
    ∃ csr, env.csrFetch = .ok csr ∧
      w.conditions = csr.conditions ++ [approvedCondition env.now] ∧
      ∀ c ∈ w.conditions.drop csr.conditions.length,
        c.type = CertificateApproved ∧ c.type ≠ CertificateDenied := by
  cases hf : env.csrFetch with
  | notFound => simp [Reconcile, hf] at hw
  | otherErr => simp [Reconcile, hf] at hw
  | ok csr =>
    cases hd : csr.deletionTimestamp with
    | some t =>
      rw [Reconcile_run_deleting env csr t hf hd] at hw
      simp at hw
    | none =>
      cases hc : env.clusterFetch (getClusterName csr) with
      | notFound =>
        rw [Reconcile_run_cluster_fail env csr hf (Or.inl hc)] at hw
        simp at hw
      | otherErr =>
        rw [Reconcile_run_cluster_fail env csr hf (Or.inr hc)] at hw
        simp at hw
      | ok u =>
        rw [Reconcile_run_submit env csr u hf hd hc] at hw
        have hwu : w = { csr with conditions := csr.conditions ++ [approvedCondition env.now] } := by
          simpa using hw
        subst hwu
        refine ⟨csr, rfl, rfl, ?_⟩
        intro c hcmem
        simp only [List.drop_left] at hcmem
        rw [List.mem_singleton] at hcmem
        subst hcmem
        exact ⟨rfl, by simp [approvedCondition, CertificateApproved, CertificateDenied]⟩

def csrC8 : CSR :=
  ⟨"csr-8", [(clusterLabel, "alpha")],
    "system:serviceaccount:alpha:alpha-bootstrap-sa", [], none⟩

def envC8 : Env := ⟨.ok csrC8, fun _ => .ok (), false, 4⟩

def wC8 : CSR := { csrC8 with conditions := csrC8.conditions ++ [approvedCondition 4] }

/-- Witness for C8 at a concrete submitted update. -/
theorem C8_witness :
    ∃ csr, envC8.csrFetch = .ok csr ∧
      wC8.conditions = csr.conditions ++ [approvedCondition envC8.now] ∧
      ∀ c ∈ wC8.conditions.drop csr.conditions.length,
        c.type = CertificateApproved ∧ c.type ≠ CertificateDenied :=
  C8_never_denies envC8 wC8 (by decide)

/-- Claim C9: a CSR whose labels carry no cluster-name key is ineligible
(`csrPredicate` is false), and `Reconcile` submits nothing, given that
fetching a registry entry under the empty name fails (no Kubernetes object
has an empty name; client-go rejects a get with an empty name). -/
theorem C9_no_label (env : Env) (csr : CSR)
    (hfetch : env.csrFetch = .ok csr)
    (hnolabel : ∀ v, (clusterLabel, v) ∉ csr.labels)
    (hempty : env.clusterFetch "" = .notFound ∨ env.clusterFetch "" = .otherErr) :
    csrPredicate csr = false ∧ (Reconcile env).writes = [] := by
  have hcn : getClusterName csr = "" := getClusterName_of_no_label csr hnolabel
  constructor
  · simp [csrPredicate, hcn]
  · rw [Reconcile_run_cluster_fail env csr hfetch (by rw [hcn]; exact hempty)]

def csrC9 : CSR := ⟨"csr-9", [("env", "prod")], "system:serviceaccount:alpha:alpha-bootstrap-sa", [], none⟩

def envC9 : Env := ⟨.ok csrC9, fun _ => .notFound, false, 0⟩

/-- Witness for C9 at a concrete unlabeled CSR. -/
theorem C9_witness : csrPredicate csrC9 = false ∧ (Reconcile envC9).writes = [] :=
  C9_no_label envC9 csrC9 rfl
    (by intro v hv; simp [csrC9, clusterLabel] at hv) (Or.inl rfl)

def csrC1 : CSR :=
  ⟨"csr-1", [(clusterLabel, "alpha")],
    "system:serviceaccount:alpha:alpha-bootstrap-sa", [approvedCondition 0], none⟩

def envC1 : Env := ⟨.ok csrC1, fun _ => .ok (), false, 5⟩

def envC1fail : Env := ⟨.ok csrC1, fun _ => .notFound, false, 5⟩

/-- Claim C1 counterexample: a CSR already carrying an Approved condition
whose labeled cluster is registered — `Reconcile` is not a no-op on it: it
submits one approval update, and the submitted CSR's condition list grew
by one.  (`Reconcile` itself never re-checks the terminal-condition guard;
only the event filter does.) -/
theorem C1_counterexample :
    (∃ c ∈ csrC1.conditions, c.type = CertificateApproved) ∧
    (Reconcile envC1).writes.length = 1 ∧
    ∀ w ∈ (Reconcile envC1).writes, w.conditions.length = csrC1.conditions.length + 1 := by
  decide

/-- Claim C1 amended: for every CSR already carrying an Approved or Denied
condition, the event filter `csrPredicate` returns false, so re-processing
is suppressed before `Reconcile` is invoked; `Reconcile` itself is a no-op
on such a CSR only when the registry fetch for its labeled cluster
fails. -/
theorem C1_amended_terminal_guard (csr : CSR)
    (h : getApprovalType csr ≠ "") :
    csrPredicate csr = false ∧
    ∀ env : Env, env.csrFetch = .ok csr →
      (env.clusterFetch (getClusterName csr) = .notFound ∨
        env.clusterFetch (getClusterName csr) = .otherErr) →
      Reconcile env = ⟨false, []⟩ := by
  constructor
  · cases hcp : csrPredicate csr with
    | false => rfl
    | true => exact absurd ((csrPredicate_eq_true_iff csr).mp hcp).2.1 h
  · intro env hf hc
    exact Reconcile_run_cluster_fail env csr hf hc

/-- Witness for C1 amended at a concrete terminal CSR. -/
theorem C1_witness :
    csrPredicate csrC1 = false ∧ Reconcile envC1fail = ⟨false, []⟩ := by
  have h := C1_amended_terminal_guard csrC1 (by decide)
  exact ⟨h.1, h.2 envC1fail rfl (Or.inl rfl)⟩

def csrC2 : CSR :=
  ⟨"csr-1", [(clusterLabel, "alpha")],
    "system:serviceaccount:beta:alpha-bootstrap-sa", [], none⟩

def envC2 : Env := ⟨.ok csrC2, fun _ => .ok (), false, 3⟩

def envC2fail : Env := ⟨.ok csrC2, fun _ => .notFound, false, 3⟩

/-- Claim C2 counterexample: a CSR whose Username does not match the
templated identity for its labeled cluster, with the cluster registered —
it is not eligible, yet `Reconcile` still submits one approval update
(`Reconcile` never re-checks the username; only the event filter does). -/
theorem C2_counterexample :
    validUsername csrC2 (getClusterName csrC2) = false ∧
    (Reconcile envC2).writes.length = 1 := by
  decide

/-- Claim C2 amended: a CSR whose Username does not equal the templated
bootstrap identity for its labeled cluster name is not eligible
(`csrPredicate` is false), so the event filter never admits it;
`Reconcile` itself performs zero writes on it only when the registry fetch
for its labeled cluster fails. -/
theorem C2_amended_username_guard (csr : CSR)
    (h : validUsername csr (getClusterName csr) = false) :
    csrPredicate csr = false ∧
    ∀ env : Env, env.csrFetch = .ok csr →
      (env.clusterFetch (getClusterName csr) = .notFound ∨
        env.clusterFetch (getClusterName csr) = .otherErr) →
      Reconcile env = ⟨false, []⟩ := by
  constructor
  · cases hcp : csrPredicate csr with
    | false => rfl
    | true =>
      have huser := ((csrPredicate_eq_true_iff csr).mp hcp).2.2
      have htrue : validUsername csr (getClusterName csr) = true := by
        simp [validUsername, huser]
      rw [htrue] at h
      exact Bool.noConfusion h
  · intro env hf hc
    exact Reconcile_run_cluster_fail env csr hf hc

/-- Witness for C2 amended at a concrete CSR with mismatched Username. -/
theorem C2_witness :
    csrPredicate csrC2 = false ∧ Reconcile envC2fail = ⟨false, []⟩ := by
  have h := C2_amended_username_guard csrC2 (by decide)
  exact ⟨h.1, h.2 envC2fail rfl (Or.inl rfl)⟩

def csrC3 : CSR :=
  ⟨"csr-1", [(clusterLabel, "alpha")],
    "system:serviceaccount:alpha:alpha-bootstrap-sa", [], some 7⟩

def envC3 : Env := ⟨.ok csrC3, fun _ => .ok (), false, 9⟩

/-- Claim C3 counterexample: a CSR that passes the eligibility predicate
and whose cluster is registered, but is marked for deletion — `Reconcile`
appends nothing and submits nothing. -/
theorem C3_counterexample :
    csrPredicate csrC3 = true ∧
    envC3.clusterFetch (getClusterName csrC3) = .ok () ∧
    Reconcile envC3 = ⟨false, []⟩ := by
  decide

/-- Claim C3 amended: for every eligible CSR that is not marked for
deletion and whose named cluster has a registry entry, one `Reconcile`
invocation submits exactly one approval update, whose condition list is
the original with exactly one condition appended at the end — type
Approved, fixed reason, fixed message, current timestamp — removing or
replacing nothing. -/
theorem C3_amended_appends_one (env : Env) (csr : CSR)
    (hfetch : env.csrFetch = .ok csr)
    (hdel : csr.deletionTimestamp = none)
    (helig : csrPredicate csr = true)
    (hcluster : env.clusterFetch (getClusterName csr) = .ok ()) :
    (Reconcile env).writes =
      [{ csr with conditions := csr.conditions ++ [approvedCondition env.now] }] := by
  rw [Reconcile_run_submit env csr () hfetch hdel hcluster]

def csrC3w : CSR :=
  ⟨"csr-1", [(clusterLabel, "alpha")],
    "system:serviceaccount:alpha:alpha-bootstrap-sa", [], none⟩

def envC3w : Env := ⟨.ok csrC3w, fun _ => .ok (), false, 9⟩

/-- Witness for C3 amended at a concrete eligible non-deleting CSR. -/
theorem C3_witness :
    (Reconcile envC3w).writes =
      [{ csrC3w with conditions := csrC3w.conditions ++ [approvedCondition envC3w.now] }] :=
  C3_amended_appends_one envC3w csrC3w rfl rfl (by decide) rfl

def csrC10 : CSR :=
  ⟨"csr-1", [(clusterLabel, "alpha")],
    "system:serviceaccount:alpha:alpha-bootstrap-sa", [], none⟩

def envC10 : Env := ⟨.ok csrC10, fun _ => .ok (), false, 1⟩

/-- Claim C10 counterexample: when client construction fails,
`newReconciler` stores a nil kube client, and an invocation that reaches
the submission step invokes the submission call on that nil client. -/
theorem C10_counterexample :
    submitsWithNilClient (newReconciler (Except.error ())) envC10 = true := by
  decide

/-- Claim C10 amended: a reconciler built from a successful client
construction never invokes the submission call with a nil client; when
construction fails, `newReconciler` stores nil and the submission step is
unguarded. -/
theorem C10_amended_client_ok (c : Unit) (env : Env) :
    submitsWithNilClient (newReconciler (Except.ok c)) env = false := by
  simp [submitsWithNilClient, newReconciler]
